import Mathlib

/-!
Formal model of the lookout-detection and alert-escalation engine of
`src/lookout.cpp` (Quest-Lookout).  The per-alarm state machine of
`app_core_logic` is embedded shallowly: durations are integer milliseconds
(every accumulation in the source adds the fixed poll period of 50 ms to a
value that starts integral), angles are rationals, and the alert resource is
modelled by a handle flag, a playing flag and an explicit list of requested
alert actions.
-/

/-- Poll period in milliseconds (`POLL_INTERVAL * 1000.0` in the source). -/
def POLL_MS : Int := 50

/-- `LookoutAlarmConfig` (lookout.cpp lines 75-92). -/
structure LookoutAlarmConfig where
  min_horizontal_angle : ℚ
  min_vertical_angle_up : ℚ
  min_vertical_angle_down : ℚ
  max_time_ms : Int
  audio_file : String
  start_volume : Int
  end_volume : Int
  volume_ramp_time_ms : Int
  repeat_interval_ms : Int
  min_lookout_time_ms : Int
  silence_after_look_ms : Int
deriving DecidableEq

/-- `AlarmState` (lookout.cpp lines 958-966).  `sound_player` models a
non-null `sf::Music*`; `sound_playing` tracks whether a play request is
outstanding (cleared by stop requests). -/
structure AlarmState where
  warning_triggered : Bool
  noLookTime_ms : Int
  repeat_timer_ms : Int
  warning_start_time_ms : Int
  looked_left_ever : Bool
  looked_right_ever : Bool
  looked_up_ever : Bool
  looked_down_ever : Bool
  left_ever_time_ms : Int
  right_ever_time_ms : Int
  alarm_silence_until_ms : Int
  sound_player : Bool
  sound_playing : Bool
  silence_message_printed : Bool
deriving DecidableEq

/-- Default-constructed `AlarmState` (lookout.cpp lines 958-966). -/
def initialAlarmState : AlarmState :=
  { warning_triggered := false,
    noLookTime_ms := 0, repeat_timer_ms := 0,
    warning_start_time_ms := 0,
    looked_left_ever := false, looked_right_ever := false,
    looked_up_ever := false, looked_down_ever := false,
    left_ever_time_ms := -1, right_ever_time_ms := -1,
    alarm_silence_until_ms := 0,
    sound_player := false, sound_playing := false,
    silence_message_printed := false }

/-- Alert-resource requests emitted by the core (stop / play / set-volume). -/
inductive AlertAction where
  | stop
  | play
  | setVolume (v : Int)
deriving DecidableEq

/-- Result of one per-alarm evaluation: next state, emitted alert requests,
and whether a successful lookout was recognised this tick. -/
structure AlarmTickResult where
  state : AlarmState
  actions : List AlertAction
  success : Bool
deriving DecidableEq

/-- `dyaw > min_horizontal_angle / 2.0` (line 1143). -/
def lookingLeft (config : LookoutAlarmConfig) (dyaw : ℚ) : Bool :=
  if config.min_horizontal_angle / 2 < dyaw then true else false

/-- `dyaw < -(min_horizontal_angle / 2.0)` (line 1144). -/
def lookingRight (config : LookoutAlarmConfig) (dyaw : ℚ) : Bool :=
  if dyaw < -(config.min_horizontal_angle / 2) then true else false

/-- `dpitch > min_vertical_angle_up` (line 1145). -/
def lookingUp (config : LookoutAlarmConfig) (dpitch : ℚ) : Bool :=
  if config.min_vertical_angle_up < dpitch then true else false

/-- `dpitch < -min_vertical_angle_down` (line 1146). -/
def lookingDown (config : LookoutAlarmConfig) (dpitch : ℚ) : Bool :=
  if dpitch < -config.min_vertical_angle_down then true else false

/-- A left crossing event: looking left while `looked_left_ever` is false
(line 1149). -/
def newLeftLook (config : LookoutAlarmConfig) (s : AlarmState) (dyaw : ℚ) : Bool :=
  lookingLeft config dyaw && !s.looked_left_ever

/-- A right crossing event (line 1153). -/
def newRightLook (config : LookoutAlarmConfig) (s : AlarmState) (dyaw : ℚ) : Bool :=
  lookingRight config dyaw && !s.looked_right_ever

/-- Directional flag/timestamp update of one tick (lines 1143-1164). -/
def crossingStep (config : LookoutAlarmConfig) (s : AlarmState)
    (dyaw dpitch : ℚ) (now : Int) : AlarmState :=
  { s with
    looked_left_ever := s.looked_left_ever || lookingLeft config dyaw,
    left_ever_time_ms := if newLeftLook config s dyaw then now else s.left_ever_time_ms,
    looked_right_ever := s.looked_right_ever || lookingRight config dyaw,
    right_ever_time_ms := if newRightLook config s dyaw then now else s.right_ever_time_ms,
    looked_up_ever := s.looked_up_ever || lookingUp config dpitch,
    looked_down_ever := s.looked_down_ever || lookingDown config dpitch }

/-- Idle/repeat timer accumulation of one tick (lines 1182-1185). -/
def timerStep (s : AlarmState) : AlarmState :=
  { s with
    noLookTime_ms := s.noLookTime_ms + POLL_MS,
    repeat_timer_ms :=
      if s.warning_triggered then s.repeat_timer_ms + POLL_MS else s.repeat_timer_ms }

/-- Full reset performed on a successful lookout (lines 1190-1195) and by the
widest-alarm cascade (lines 1202-1207); the sound player is stopped when
present but the handle is kept. -/
def successResetState (s : AlarmState) : AlarmState :=
  { s with
    noLookTime_ms := 0, warning_triggered := false, repeat_timer_ms := 0,
    looked_left_ever := false, left_ever_time_ms := -1,
    looked_right_ever := false, right_ever_time_ms := -1,
    looked_up_ever := false, looked_down_ever := false,
    silence_message_printed := false, alarm_silence_until_ms := 0,
    sound_playing := s.sound_playing && !s.sound_player }

/-- The all-four-directions evaluation (lines 1187-1219): SUCCESS with full
reset when the left/right crossing times differ by at least
`min_lookout_time_ms`, otherwise only the horizontal flags and timestamps are
cleared. -/
def fourSeenEval (config : LookoutAlarmConfig) (s : AlarmState) : AlarmTickResult :=
  if s.looked_left_ever && s.looked_right_ever && s.looked_up_ever && s.looked_down_ever then
    if config.min_lookout_time_ms ≤ |s.left_ever_time_ms - s.right_ever_time_ms| then
      { state := successResetState s,
        actions := if s.sound_player then [AlertAction.stop] else [],
        success := true }
    else
      { state :=
          { s with
            looked_left_ever := false, left_ever_time_ms := -1,
            looked_right_ever := false, right_ever_time_ms := -1 },
        actions := [], success := false }
  else
    { state := s, actions := [], success := false }

/-- Opening/extending of the silence window on a fresh horizontal crossing
(lines 1221-1231); an active warning's sound is muted immediately. -/
def silenceUpdState (config : LookoutAlarmConfig) (now : Int) (new_lr : Bool)
    (s : AlarmState) : AlarmState :=
  if new_lr then
    { s with
      alarm_silence_until_ms := now + config.silence_after_look_ms,
      silence_message_printed :=
        s.silence_message_printed || (s.warning_triggered && s.sound_player) }
  else s

/-- Mute request emitted on a fresh horizontal crossing during a warning
(lines 1224-1230). -/
def silenceUpdActs (new_lr : Bool) (s : AlarmState) : List AlertAction :=
  if new_lr && s.warning_triggered && s.sound_player then [AlertAction.setVolume 0] else []

/-- Truncation toward zero, mirroring C++ `static_cast<int>` on a double. -/
def ratTrunc (q : ℚ) : Int :=
  if 0 ≤ q then ⌊q⌋ else ⌈q⌉

/-- Ramped target volume while a warning is active (lines 1284-1291). -/
def rampVolume (config : LookoutAlarmConfig) (now wstart : Int) : Int :=
  if 0 < config.volume_ramp_time_ms ∧ config.end_volume ≠ config.start_volume then
    ratTrunc ((config.start_volume : ℚ) +
      min 1 (((now - wstart : Int) : ℚ) / (config.volume_ramp_time_ms : ℚ)) *
        ((config.end_volume - config.start_volume : Int) : ℚ))
  else config.end_volume

/-- The escalation scheduler of one tick (lines 1233-1320): deferred or actual
IDLE→WARNING transition, then repeat/ramp handling while the warning is
active. -/
def escalationStep (config : LookoutAlarmConfig) (now : Int) (audio_ok : Bool)
    (s : AlarmState) : AlarmState × List AlertAction :=
  if s.warning_triggered = false ∧ config.max_time_ms ≤ s.noLookTime_ms then
    if now < s.alarm_silence_until_ms then
      ({ s with silence_message_printed := true }, [])
    else
      ({ s with
          silence_message_printed := false, warning_triggered := true,
          repeat_timer_ms := 0, warning_start_time_ms := now,
          looked_left_ever := false, left_ever_time_ms := -1,
          looked_right_ever := false, right_ever_time_ms := -1,
          looked_up_ever := false, looked_down_ever := false,
          sound_player := audio_ok, sound_playing := audio_ok },
        (if s.sound_player then [AlertAction.stop] else []) ++
          (if audio_ok then [AlertAction.setVolume config.start_volume, AlertAction.play]
           else []))
  else if s.warning_triggered = true then
    if s.sound_player then
      if now < s.alarm_silence_until_ms then
        ({ s with silence_message_printed := true }, [AlertAction.setVolume 0])
      else
        if config.repeat_interval_ms ≤ s.repeat_timer_ms then
          ({ s with
              silence_message_printed := false, repeat_timer_ms := 0,
              sound_playing := true },
            [AlertAction.setVolume (rampVolume config now s.warning_start_time_ms),
             AlertAction.stop, AlertAction.play])
        else
          ({ s with silence_message_printed := false },
            [AlertAction.setVolume (rampVolume config now s.warning_start_time_ms)])
    else
      if config.repeat_interval_ms ≤ s.repeat_timer_ms then
        ({ s with repeat_timer_ms := 0 }, [])
      else (s, [])
  else (s, [])

/-- Silence-window update followed by the escalation scheduler (lines
1221-1320). -/
def alarmTickRest (config : LookoutAlarmConfig) (now : Int) (audio_ok : Bool)
    (new_lr : Bool) (s : AlarmState) : AlarmState × List AlertAction :=
  ((escalationStep config now audio_ok (silenceUpdState config now new_lr s)).1,
   silenceUpdActs new_lr s ++
     (escalationStep config now audio_ok (silenceUpdState config now new_lr s)).2)

/-- One full evaluation of one enabled alarm for one tick (loop body, lines
1138-1321).  On SUCCESS the rest of the body is skipped (`continue`). -/
def alarmTick (config : LookoutAlarmConfig) (s0 : AlarmState) (dyaw dpitch : ℚ)
    (now : Int) (audio_ok : Bool) : AlarmTickResult :=
  let r := fourSeenEval config (timerStep (crossingStep config s0 dyaw dpitch now))
  if r.success = true then r
  else
    { state := (alarmTickRest config now audio_ok
        (newLeftLook config s0 dyaw || newRightLook config s0 dyaw) r.state).1,
      actions := r.actions ++ (alarmTickRest config now audio_ok
        (newLeftLook config s0 dyaw || newRightLook config s0 dyaw) r.state).2,
      success := false }

/-- Forced reset of one alarm when the Condor flight ends, i.e. the Activity
Gate deactivates (lines 992-1004). -/
def flightEndReset (s : AlarmState) : AlarmState :=
  { s with
    warning_triggered := false, noLookTime_ms := 0, repeat_timer_ms := 0,
    warning_start_time_ms := 0,
    looked_left_ever := false, looked_right_ever := false,
    looked_up_ever := false, looked_down_ever := false,
    left_ever_time_ms := -1, right_ever_time_ms := -1,
    alarm_silence_until_ms := 0, silence_message_printed := false,
    sound_playing := s.sound_playing && !s.sound_player }

/-- Reset of one alarm when the HMD session is lost and cannot be recreated
(lines 1068-1078): only warning flag, idle timer and repeat timer are
cleared. -/
def hmdLostReset (s : AlarmState) : AlarmState :=
  { s with
    warning_triggered := false, noLookTime_ms := 0, repeat_timer_ms := 0,
    sound_playing := s.sound_playing && !s.sound_player }

/-- Effect of the center-reset trigger on the alarm states (lines 1120-1136):
for every enabled alarm only the directional flags and the horizontal
timestamps are cleared. -/
def centerResetApply (cfgs : ℕ → LookoutAlarmConfig) (n : ℕ)
    (states : ℕ → AlarmState) : ℕ → AlarmState :=
  fun j =>
    if j < n ∧ 0 < (cfgs j).min_horizontal_angle then
      { states j with
        looked_left_ever := false, left_ever_time_ms := -1,
        looked_right_ever := false, right_ever_time_ms := -1,
        looked_up_ever := false, looked_down_ever := false }
    else states j

/-- Cross-alarm cascade after a SUCCESS of the widest alarm `wi` (lines
1198-1211): every other enabled alarm with a strictly smaller horizontal span
is fully reset and its sound stopped. -/
def cascadeApply (cfgs : ℕ → LookoutAlarmConfig) (n : ℕ) (wi : ℕ)
    (states : ℕ → AlarmState) : ℕ → AlarmState :=
  fun j =>
    if j < n ∧ 0 < (cfgs j).min_horizontal_angle ∧ j ≠ wi ∧
        (cfgs j).min_horizontal_angle < (cfgs wi).min_horizontal_angle then
      successResetState (states j)
    else states j

/-- Widest-alarm scan accumulator step (lines 913-923): iterate `k` indices
starting at `i`; the accumulator is (index, angle, valid). -/
def widestAux (cfgs : ℕ → LookoutAlarmConfig) : ℕ → ℕ → ℕ × ℚ × Bool → ℕ × ℚ × Bool
  | 0, _, acc => acc
  | Nat.succ k, i, acc =>
      widestAux cfgs k (i + 1)
        (if 0 < (cfgs i).min_horizontal_angle then
          (if acc.2.2 = false ∨ acc.2.1 < (cfgs i).min_horizontal_angle then
            (i, (cfgs i).min_horizontal_angle, true)
          else acc)
        else acc)

/-- Startup selection of the widest enabled alarm (lines 911-927). -/
def widestAlarm (cfgs : ℕ → LookoutAlarmConfig) (n : ℕ) : ℕ × ℚ × Bool :=
  widestAux cfgs n 0 (0, 0, false)

/-- One per-tick engine action seen by the alarm states: Activity Gate
deactivation (flight end), HMD session loss with failed recreation, HMD not
ready (tick skipped), or a normal orientation sample (with whether creating a
sound player would succeed and whether the center-reset trigger fired this
tick). -/
inductive TickEvent where
  | flightEnd
  | hmdSessionLost
  | hmdNotReady
  | sample (dyaw dpitch : ℚ) (audio_ok : Bool) (center_reset : Bool)

/-- The loop body for alarm index `i` (lines 1138-1321): skip disabled
alarms, evaluate the alarm, and run the widest-alarm cascade when the widest
alarm just succeeded. -/
def stepAt (cfgs : ℕ → LookoutAlarmConfig) (n : ℕ) (wvalid : Bool) (wi : ℕ)
    (dyaw dpitch : ℚ) (now : Int) (audio_ok : Bool)
    (i : ℕ) (states : ℕ → AlarmState) : ℕ → AlarmState :=
  if i < n ∧ 0 < (cfgs i).min_horizontal_angle then
    if (alarmTick (cfgs i) (states i) dyaw dpitch now audio_ok).success = true ∧
        wvalid = true ∧ i = wi then
      cascadeApply cfgs n i
        (Function.update states i (alarmTick (cfgs i) (states i) dyaw dpitch now audio_ok).state)
    else
      Function.update states i (alarmTick (cfgs i) (states i) dyaw dpitch now audio_ok).state
  else states

/-- Run `k` consecutive loop bodies starting at alarm index `i`. -/
def loopFrom (cfgs : ℕ → LookoutAlarmConfig) (n : ℕ) (wvalid : Bool) (wi : ℕ)
    (dyaw dpitch : ℚ) (now : Int) (audio_ok : Bool) :
    ℕ → ℕ → (ℕ → AlarmState) → ℕ → AlarmState
  | 0, _, states => states
  | Nat.succ k, i, states =>
      loopFrom cfgs n wvalid wi dyaw dpitch now audio_ok k (i + 1)
        (stepAt cfgs n wvalid wi dyaw dpitch now audio_ok i states)

/-- Effect of one tick of the main loop on the alarm states, by event kind
(lines 969-1325). -/
def engineStep (cfgs : ℕ → LookoutAlarmConfig) (n : ℕ) (wvalid : Bool) (wi : ℕ)
    (now : Int) (ev : TickEvent) (states : ℕ → AlarmState) : ℕ → AlarmState :=
  match ev with
  | TickEvent.flightEnd => fun j => flightEndReset (states j)
  | TickEvent.hmdSessionLost => fun j => hmdLostReset (states j)
  | TickEvent.hmdNotReady => states
  | TickEvent.sample dyaw dpitch audio_ok center_reset =>
      loopFrom cfgs n wvalid wi dyaw dpitch now audio_ok n 0
        (if center_reset = true then centerResetApply cfgs n states else states)

/-- Startup normalization of one alarm's repeat interval (line 894). -/
def normalizeRepeatInterval (c : LookoutAlarmConfig) : LookoutAlarmConfig :=
  if c.repeat_interval_ms < 100 then { c with repeat_interval_ms := 5000 } else c

/-- Startup disabling of alarms with non-positive spans (lines 895-898). -/
def markDisabled (c : LookoutAlarmConfig) : LookoutAlarmConfig :=
  if c.min_horizontal_angle ≤ 0 ∨
      (c.min_vertical_angle_up ≤ 0 ∧ c.min_vertical_angle_down ≤ 0) then
    { c with min_horizontal_angle := -1 }
  else c

/-- The startup configuration pass (lines 893-909), applied once before the
monitoring loop starts. -/
def startupNormalize (alarms : List LookoutAlarmConfig) : List LookoutAlarmConfig :=
  alarms.map (fun c => markDisabled (normalizeRepeatInterval c))

/-- Interquartile subset of a (sorted) sample list: the elements between the
first- and third-quartile index, both included. -/
def iqrSubset (l : List ℚ) : List ℚ :=
  (l.drop (l.length / 4)).take (3 * l.length / 4 - l.length / 4 + 1)

/-- Median element of a sample list (middle element by index). -/
def listMedian (l : List ℚ) : ℚ :=
  l.getD (l.length / 2) 0

/-- Modelled from the spec: the adaptive Baseline Estimator's per-axis
`center()` is absent from src/lookout.cpp (the final source keeps only the
fixed quaternion baseline; the sample-window variant was removed).  Spec
§4.1: keep the last W seconds of samples; per axis, sort, take the
interquartile subset, and return its median; an empty window yields the
current sample. -/
def adaptiveCenterAxis (window : List ℚ) (current : ℚ) : ℚ :=
  if window = [] then current
  else listMedian (iqrSubset (List.insertionSort (· ≤ ·) window))

/-- A representative enabled configuration (the source defaults, lines
75-92). -/
def cfgW : LookoutAlarmConfig :=
  { min_horizontal_angle := 120, min_vertical_angle_up := 20,
    min_vertical_angle_down := 5, max_time_ms := 60000, audio_file := "",
    start_volume := 5, end_volume := 100, volume_ramp_time_ms := 30000,
    repeat_interval_ms := 5000, min_lookout_time_ms := 2000,
    silence_after_look_ms := 5000 }

/-- State with all four directions seen, crossings 2000 ms apart. -/
def stC1 : AlarmState :=
  { initialAlarmState with
    looked_left_ever := true, looked_right_ever := true,
    looked_up_ever := true, looked_down_ever := true,
    left_ever_time_ms := 0, right_ever_time_ms := 2000,
    noLookTime_ms := 500, sound_player := true, sound_playing := true }

/-- 2-second idle threshold variant. -/
def cfgShort : LookoutAlarmConfig := { cfgW with max_time_ms := 2000 }

/-- State one tick away from the idle threshold. -/
def stC2 : AlarmState := { initialAlarmState with noLookTime_ms := 1950 }

/-- 1-second repeat interval variant. -/
def cfgC3 : LookoutAlarmConfig := { cfgW with repeat_interval_ms := 1000 }

/-- Active warning one tick away from a repeat, inside a silence window. -/
def stC3 : AlarmState :=
  { initialAlarmState with
    warning_triggered := true, sound_player := true, sound_playing := true,
    repeat_timer_ms := 950, alarm_silence_until_ms := 10000 }

/-- State with all four directions seen but crossings only 500 ms apart. -/
def stC4 : AlarmState :=
  { initialAlarmState with
    looked_left_ever := true, looked_right_ever := true,
    looked_up_ever := true, looked_down_ever := true,
    left_ever_time_ms := 1000, right_ever_time_ms := 1500,
    noLookTime_ms := 4000 }

/-- Scenario B state: idle threshold about to be met while silenced until
t = 6900 ms. -/
def stC5 : AlarmState :=
  { initialAlarmState with noLookTime_ms := 1950, alarm_silence_until_ms := 6900 }

/-- Single-alarm configuration family. -/
def cfgs6 : ℕ → LookoutAlarmConfig := fun _ => cfgW

/-- Single-alarm state family with an active warning. -/
def states6 : ℕ → AlarmState :=
  fun _ =>
    { initialAlarmState with
      warning_triggered := true, sound_player := true, sound_playing := true }

/-- Narrower 60-degree alarm with a 10-second idle threshold. -/
def cfgNarrow : LookoutAlarmConfig :=
  { cfgW with min_horizontal_angle := 60, max_time_ms := 10000 }

/-- Two-alarm configuration: alarm 0 spans 120 degrees, alarm 1 spans 60. -/
def cfgs7 : ℕ → LookoutAlarmConfig := fun i => if i = 1 then cfgNarrow else cfgW

/-- Scenario C states: the widest alarm ready to succeed, the narrower alarm
5000 ms idle with no flags. -/
def states7 : ℕ → AlarmState :=
  fun i => if i = 0 then stC1 else { initialAlarmState with noLookTime_ms := 5000 }

/-- Single-alarm state family with idle time and flags accumulated. -/
def states9 : ℕ → AlarmState :=
  fun _ => { initialAlarmState with
             noLookTime_ms := 5000, warning_triggered := true,
             looked_left_ever := true, left_ever_time_ms := 100 }

/-! ### Helper lemmas -/

@[simp] theorem crossingStep_warning (config : LookoutAlarmConfig) (s : AlarmState)
    (dyaw dpitch : ℚ) (now : Int) :
    (crossingStep config s dyaw dpitch now).warning_triggered = s.warning_triggered := rfl

@[simp] theorem crossingStep_noLook (config : LookoutAlarmConfig) (s : AlarmState)
    (dyaw dpitch : ℚ) (now : Int) :
    (crossingStep config s dyaw dpitch now).noLookTime_ms = s.noLookTime_ms := rfl

@[simp] theorem crossingStep_repeat (config : LookoutAlarmConfig) (s : AlarmState)
    (dyaw dpitch : ℚ) (now : Int) :
    (crossingStep config s dyaw dpitch now).repeat_timer_ms = s.repeat_timer_ms := rfl

@[simp] theorem crossingStep_silence (config : LookoutAlarmConfig) (s : AlarmState)
    (dyaw dpitch : ℚ) (now : Int) :
    (crossingStep config s dyaw dpitch now).alarm_silence_until_ms =
      s.alarm_silence_until_ms := rfl

@[simp] theorem crossingStep_player (config : LookoutAlarmConfig) (s : AlarmState)
    (dyaw dpitch : ℚ) (now : Int) :
    (crossingStep config s dyaw dpitch now).sound_player = s.sound_player := rfl

@[simp] theorem crossingStep_playing (config : LookoutAlarmConfig) (s : AlarmState)
    (dyaw dpitch : ℚ) (now : Int) :
    (crossingStep config s dyaw dpitch now).sound_playing = s.sound_playing := rfl

@[simp] theorem crossingStep_wstart (config : LookoutAlarmConfig) (s : AlarmState)
    (dyaw dpitch : ℚ) (now : Int) :
    (crossingStep config s dyaw dpitch now).warning_start_time_ms =
      s.warning_start_time_ms := rfl

@[simp] theorem timerStep_warning (s : AlarmState) :
    (timerStep s).warning_triggered = s.warning_triggered := rfl

@[simp] theorem timerStep_noLook (s : AlarmState) :
    (timerStep s).noLookTime_ms = s.noLookTime_ms + POLL_MS := rfl

@[simp] theorem timerStep_left (s : AlarmState) :
    (timerStep s).looked_left_ever = s.looked_left_ever := rfl

@[simp] theorem timerStep_right (s : AlarmState) :
    (timerStep s).looked_right_ever = s.looked_right_ever := rfl

@[simp] theorem timerStep_up (s : AlarmState) :
    (timerStep s).looked_up_ever = s.looked_up_ever := rfl

@[simp] theorem timerStep_down (s : AlarmState) :
    (timerStep s).looked_down_ever = s.looked_down_ever := rfl

@[simp] theorem timerStep_ltime (s : AlarmState) :
    (timerStep s).left_ever_time_ms = s.left_ever_time_ms := rfl

@[simp] theorem timerStep_rtime (s : AlarmState) :
    (timerStep s).right_ever_time_ms = s.right_ever_time_ms := rfl

@[simp] theorem timerStep_silence (s : AlarmState) :
    (timerStep s).alarm_silence_until_ms = s.alarm_silence_until_ms := rfl

@[simp] theorem timerStep_player (s : AlarmState) :
    (timerStep s).sound_player = s.sound_player := rfl

@[simp] theorem timerStep_playing (s : AlarmState) :
    (timerStep s).sound_playing = s.sound_playing := rfl

@[simp] theorem timerStep_wstart (s : AlarmState) :
    (timerStep s).warning_start_time_ms = s.warning_start_time_ms := rfl

/-- With all four flags already set, the crossing step keeps them true and
keeps the timestamps. -/
theorem crossingStep_allSeen (config : LookoutAlarmConfig) (s : AlarmState)
    (dyaw dpitch : ℚ) (now : Int)
    (hL : s.looked_left_ever = true) (hR : s.looked_right_ever = true)
    (hU : s.looked_up_ever = true) (hD : s.looked_down_ever = true) :
    (crossingStep config s dyaw dpitch now).looked_left_ever = true ∧
    (crossingStep config s dyaw dpitch now).looked_right_ever = true ∧
    (crossingStep config s dyaw dpitch now).looked_up_ever = true ∧
    (crossingStep config s dyaw dpitch now).looked_down_ever = true ∧
    (crossingStep config s dyaw dpitch now).left_ever_time_ms = s.left_ever_time_ms ∧
    (crossingStep config s dyaw dpitch now).right_ever_time_ms = s.right_ever_time_ms := by
  simp [crossingStep, newLeftLook, newRightLook, hL, hR, hU, hD]

/-! ### C1 -/

/-- C1: for an enabled alarm, a tick on which all four seen flags hold and
the horizontal crossing times differ by at least `min_lookout_time_ms`
(inclusive) is a SUCCESS: idle time 0, warning off, all flags and horizontal
timestamps cleared, silence window cleared, and a stop is requested for the
active sound player. -/
theorem lookout_success_full_reset (config : LookoutAlarmConfig) (s : AlarmState)
    (dyaw dpitch : ℚ) (now : Int) (audio_ok : Bool)
    (hL : s.looked_left_ever = true) (hR : s.looked_right_ever = true)
    (hU : s.looked_up_ever = true) (hD : s.looked_down_ever = true)
    (hdiff : config.min_lookout_time_ms ≤ |s.left_ever_time_ms - s.right_ever_time_ms|) :
    (alarmTick config s dyaw dpitch now audio_ok).success = true ∧
    (alarmTick config s dyaw dpitch now audio_ok).state.noLookTime_ms = 0 ∧
    (alarmTick config s dyaw dpitch now audio_ok).state.warning_triggered = false ∧
    (alarmTick config s dyaw dpitch now audio_ok).state.looked_left_ever = false ∧
    (alarmTick config s dyaw dpitch now audio_ok).state.looked_right_ever = false ∧
    (alarmTick config s dyaw dpitch now audio_ok).state.looked_up_ever = false ∧
    (alarmTick config s dyaw dpitch now audio_ok).state.looked_down_ever = false ∧
    (alarmTick config s dyaw dpitch now audio_ok).state.left_ever_time_ms = -1 ∧
    (alarmTick config s dyaw dpitch now audio_ok).state.right_ever_time_ms = -1 ∧
    (alarmTick config s dyaw dpitch now audio_ok).state.alarm_silence_until_ms = 0 ∧
    (s.sound_player = true →
      (alarmTick config s dyaw dpitch now audio_ok).actions = [AlertAction.stop]) ∧
    (alarmTick config s dyaw dpitch now audio_ok).state.sound_playing =
      (s.sound_playing && !s.sound_player) := by
  obtain ⟨c1, c2, c3, c4, c5, c6⟩ := crossingStep_allSeen config s dyaw dpitch now hL hR hU hD
  have e1 : (timerStep (crossingStep config s dyaw dpitch now)).looked_left_ever = true := by
    rw [timerStep_left]; exact c1
  have e2 : (timerStep (crossingStep config s dyaw dpitch now)).looked_right_ever = true := by
    rw [timerStep_right]; exact c2
  have e3 : (timerStep (crossingStep config s dyaw dpitch now)).looked_up_ever = true := by
    rw [timerStep_up]; exact c3
  have e4 : (timerStep (crossingStep config s dyaw dpitch now)).looked_down_ever = true := by
    rw [timerStep_down]; exact c4
  have e5 : (timerStep (crossingStep config s dyaw dpitch now)).left_ever_time_ms =
      s.left_ever_time_ms := by rw [timerStep_ltime]; exact c5
  have e6 : (timerStep (crossingStep config s dyaw dpitch now)).right_ever_time_ms =
      s.right_ever_time_ms := by rw [timerStep_rtime]; exact c6
  have h4 : fourSeenEval config (timerStep (crossingStep config s dyaw dpitch now)) =
      { state := successResetState (timerStep (crossingStep config s dyaw dpitch now)),
        actions := if (timerStep (crossingStep config s dyaw dpitch now)).sound_player then
          [AlertAction.stop] else [],
        success := true } := by
    rw [fourSeenEval, e1, e2, e3, e4, e5, e6,
      if_pos (show (true && true && true && true) = true from rfl), if_pos hdiff]
  simp only [alarmTick, h4]
  norm_num [successResetState]

/-- C1 witness at a concrete input. -/
theorem lookout_success_full_reset_witness :
    (alarmTick cfgW stC1 0 0 2100 true).success = true :=
  (lookout_success_full_reset cfgW stC1 0 0 2100 true rfl rfl rfl rfl
    (by norm_num [cfgW, stC1, initialAlarmState])).1

/-! ### C4 -/

/-- C4: when all four seen flags hold but the horizontal crossing times
differ by less than `min_lookout_time_ms`, the evaluation clears only the
horizontal flags and timestamps; the vertical flags stay true and idle time,
warning state, repeat timer and silence window are untouched by this
evaluation, and no alert request is emitted. -/
theorem lr_diff_short_horizontal_only (config : LookoutAlarmConfig) (s : AlarmState)
    (hL : s.looked_left_ever = true) (hR : s.looked_right_ever = true)
    (hU : s.looked_up_ever = true) (hD : s.looked_down_ever = true)
    (hdiff : |s.left_ever_time_ms - s.right_ever_time_ms| < config.min_lookout_time_ms) :
    (fourSeenEval config s).success = false ∧
    (fourSeenEval config s).state.looked_left_ever = false ∧
    (fourSeenEval config s).state.left_ever_time_ms = -1 ∧
    (fourSeenEval config s).state.looked_right_ever = false ∧
    (fourSeenEval config s).state.right_ever_time_ms = -1 ∧
    (fourSeenEval config s).state.looked_up_ever = true ∧
    (fourSeenEval config s).state.looked_down_ever = true ∧
    (fourSeenEval config s).state.noLookTime_ms = s.noLookTime_ms ∧
    (fourSeenEval config s).state.warning_triggered = s.warning_triggered ∧
    (fourSeenEval config s).state.repeat_timer_ms = s.repeat_timer_ms ∧
    (fourSeenEval config s).state.alarm_silence_until_ms = s.alarm_silence_until_ms ∧
    (fourSeenEval config s).actions = [] := by
  have hnot : ¬ config.min_lookout_time_ms ≤ |s.left_ever_time_ms - s.right_ever_time_ms| :=
    not_le.mpr hdiff
  rw [fourSeenEval, hL, hR, hU, hD,
    if_pos (show (true && true && true && true) = true from rfl), if_neg hnot]
  exact ⟨rfl, rfl, rfl, rfl, rfl, rfl, rfl, rfl, rfl, rfl, rfl, rfl⟩

/-- C4 witness at a concrete input (Scenario D: crossings 500 ms apart,
`min_lookout_time_ms` 2000). -/
theorem lr_diff_short_horizontal_only_witness :
    (fourSeenEval cfgW stC4).success = false :=
  (lr_diff_short_horizontal_only cfgW stC4 rfl rfl rfl rfl
    (by norm_num [cfgW, stC4, initialAlarmState])).1

/-! ### Quiet-tick reduction -/

theorem newLeftLook_false (config : LookoutAlarmConfig) (s : AlarmState) (dyaw : ℚ)
    (hL : ¬ config.min_horizontal_angle / 2 < dyaw) :
    newLeftLook config s dyaw = false := by
  simp [newLeftLook, lookingLeft, hL]

theorem newRightLook_false (config : LookoutAlarmConfig) (s : AlarmState) (dyaw : ℚ)
    (hR : ¬ dyaw < -(config.min_horizontal_angle / 2)) :
    newRightLook config s dyaw = false := by
  simp [newRightLook, lookingRight, hR]

/-- On a tick with no horizontal crossing and no up-glance while
`looked_up_ever` is still false, the four-seen evaluation cannot fire and the
tick reduces to timers plus the escalation scheduler. -/
theorem alarmTick_quiet (config : LookoutAlarmConfig) (s : AlarmState)
    (dyaw dpitch : ℚ) (now : Int) (audio_ok : Bool)
    (hL : ¬ config.min_horizontal_angle / 2 < dyaw)
    (hR : ¬ dyaw < -(config.min_horizontal_angle / 2))
    (hU : s.looked_up_ever = false)
    (hUp : ¬ config.min_vertical_angle_up < dpitch) :
    alarmTick config s dyaw dpitch now audio_ok =
      { state := (escalationStep config now audio_ok
          (timerStep (crossingStep config s dyaw dpitch now))).1,
        actions := (escalationStep config now audio_ok
          (timerStep (crossingStep config s dyaw dpitch now))).2,
        success := false } := by
  have hnl := newLeftLook_false config s dyaw hL
  have hnr := newRightLook_false config s dyaw hR
  have hup2 : (timerStep (crossingStep config s dyaw dpitch now)).looked_up_ever = false := by
    rw [timerStep_up]
    simp [crossingStep, lookingUp, hUp, hU]
  have hfs : fourSeenEval config (timerStep (crossingStep config s dyaw dpitch now)) =
      { state := timerStep (crossingStep config s dyaw dpitch now),
        actions := [], success := false } := by
    rw [fourSeenEval, hup2]
    simp
  simp [alarmTick, hfs, hnl, hnr, alarmTickRest, silenceUpdState, silenceUpdActs]

/-! ### C2 -/

/-- C2 counterexample to the claim as stated: on the IDLE→WARNING transition
the code does not reset the idle timer; at the triggering tick
`noLookTime_ms` is 2000, not 0. -/
theorem warning_trigger_keeps_idle_cex :
    (alarmTick cfgShort stC2 0 0 2000 true).state.warning_triggered = true ∧
    (alarmTick cfgShort stC2 0 0 2000 true).state.noLookTime_ms = 2000 ∧
    ¬ (alarmTick cfgShort stC2 0 0 2000 true).state.noLookTime_ms = 0 := by
  norm_num [alarmTick, fourSeenEval, crossingStep, timerStep, alarmTickRest,
    silenceUpdState, silenceUpdActs, escalationStep, newLeftLook, newRightLook,
    lookingLeft, lookingRight, lookingUp, lookingDown, POLL_MS, cfgShort, cfgW,
    stC2, initialAlarmState]

/-- C2 amended: entering WARNING sets `repeat_timer_ms` to 0,
`warning_started_ms` to now, clears all four directional flags and both
horizontal timestamps, and requests the alert at `start_volume`; the idle
timer is NOT reset (it keeps its accumulated value). -/
theorem warning_trigger_transition (config : LookoutAlarmConfig) (s : AlarmState)
    (dyaw dpitch : ℚ) (now : Int) (audio_ok : Bool)
    (hw : s.warning_triggered = false)
    (hL : ¬ config.min_horizontal_angle / 2 < dyaw)
    (hR : ¬ dyaw < -(config.min_horizontal_angle / 2))
    (hU : s.looked_up_ever = false)
    (hUp : ¬ config.min_vertical_angle_up < dpitch)
    (hidle : config.max_time_ms ≤ s.noLookTime_ms + POLL_MS)
    (hsil : s.alarm_silence_until_ms ≤ now) :
    (alarmTick config s dyaw dpitch now audio_ok).state.warning_triggered = true ∧
    (alarmTick config s dyaw dpitch now audio_ok).state.repeat_timer_ms = 0 ∧
    (alarmTick config s dyaw dpitch now audio_ok).state.warning_start_time_ms = now ∧
    (alarmTick config s dyaw dpitch now audio_ok).state.looked_left_ever = false ∧
    (alarmTick config s dyaw dpitch now audio_ok).state.looked_right_ever = false ∧
    (alarmTick config s dyaw dpitch now audio_ok).state.looked_up_ever = false ∧
    (alarmTick config s dyaw dpitch now audio_ok).state.looked_down_ever = false ∧
    (alarmTick config s dyaw dpitch now audio_ok).state.left_ever_time_ms = -1 ∧
    (alarmTick config s dyaw dpitch now audio_ok).state.right_ever_time_ms = -1 ∧
    (alarmTick config s dyaw dpitch now audio_ok).state.noLookTime_ms =
      s.noLookTime_ms + POLL_MS ∧
    (audio_ok = true →
      (alarmTick config s dyaw dpitch now audio_ok).actions =
        (if s.sound_player = true then [AlertAction.stop] else []) ++
          [AlertAction.setVolume config.start_volume, AlertAction.play]) ∧
    (alarmTick config s dyaw dpitch now audio_ok).success = false := by
  rw [alarmTick_quiet config s dyaw dpitch now audio_ok hL hR hU hUp]
  have g1 : (timerStep (crossingStep config s dyaw dpitch now)).warning_triggered = false := by
    rw [timerStep_warning, crossingStep_warning]; exact hw
  have g2 : config.max_time_ms ≤
      (timerStep (crossingStep config s dyaw dpitch now)).noLookTime_ms := by
    rw [timerStep_noLook, crossingStep_noLook]; exact hidle
  have g3 : ¬ now < (timerStep (crossingStep config s dyaw dpitch now)).alarm_silence_until_ms := by
    rw [timerStep_silence, crossingStep_silence]; exact not_lt.mpr hsil
  rw [escalationStep, if_pos ⟨g1, g2⟩, if_neg g3]
  refine ⟨rfl, rfl, rfl, rfl, rfl, rfl, rfl, rfl, rfl, ?_, ?_, rfl⟩
  · show (timerStep (crossingStep config s dyaw dpitch now)).noLookTime_ms =
      s.noLookTime_ms + POLL_MS
    rw [timerStep_noLook, crossingStep_noLook]
  · intro ha
    rw [ha, timerStep_player, crossingStep_player]
    simp

/-- C2 amended witness at a concrete input. -/
theorem warning_trigger_transition_witness :
    (alarmTick cfgShort stC2 0 0 2000 true).state.warning_triggered = true :=
  (warning_trigger_transition cfgShort stC2 0 0 2000 true rfl
    (by norm_num [cfgShort, cfgW]) (by norm_num [cfgShort, cfgW]) rfl
    (by norm_num [cfgShort, cfgW])
    (by norm_num [cfgShort, cfgW, stC2, initialAlarmState, POLL_MS])
    (by norm_num [stC2, initialAlarmState])).1

/-! ### C3 -/

/-- C3 counterexample to the claim as stated: with an active sound player, a
repeat falling due inside the silence window leaves the repeat timer running
(1000 ms here) instead of resetting it to 0; only a mute is requested. -/
theorem repeat_timer_not_reset_in_silence_cex :
    (alarmTick cfgC3 stC3 0 0 500 true).state.repeat_timer_ms = 1000 ∧
    ¬ (alarmTick cfgC3 stC3 0 0 500 true).state.repeat_timer_ms = 0 ∧
    (alarmTick cfgC3 stC3 0 0 500 true).actions = [AlertAction.setVolume 0] := by
  norm_num [alarmTick, fourSeenEval, crossingStep, timerStep, alarmTickRest,
    silenceUpdState, silenceUpdActs, escalationStep, newLeftLook, newRightLook,
    lookingLeft, lookingRight, lookingUp, lookingDown, POLL_MS, cfgC3, cfgW,
    stC3, initialAlarmState]

/-- C3 amended: while a warning with a sound player is active, a tick inside
the silence window only mutes the sound — the repeat timer keeps
accumulating and is NOT reset; outside the silence window, once the repeat
timer reaches `repeat_interval_ms` the alert is re-issued at the current
ramped volume and the repeat timer resets to 0. -/
theorem repeat_respects_silence (config : LookoutAlarmConfig) (s : AlarmState)
    (dyaw dpitch : ℚ) (now : Int) (audio_ok : Bool)
    (hw : s.warning_triggered = true)
    (hp : s.sound_player = true)
    (hL : ¬ config.min_horizontal_angle / 2 < dyaw)
    (hR : ¬ dyaw < -(config.min_horizontal_angle / 2))
    (hU : s.looked_up_ever = false)
    (hUp : ¬ config.min_vertical_angle_up < dpitch) :
    (now < s.alarm_silence_until_ms →
      (alarmTick config s dyaw dpitch now audio_ok).state.repeat_timer_ms =
        s.repeat_timer_ms + POLL_MS ∧
      (alarmTick config s dyaw dpitch now audio_ok).actions = [AlertAction.setVolume 0]) ∧
    (s.alarm_silence_until_ms ≤ now →
      config.repeat_interval_ms ≤ s.repeat_timer_ms + POLL_MS →
      (alarmTick config s dyaw dpitch now audio_ok).state.repeat_timer_ms = 0 ∧
      (alarmTick config s dyaw dpitch now audio_ok).actions =
        [AlertAction.setVolume (rampVolume config now s.warning_start_time_ms),
         AlertAction.stop, AlertAction.play]) := by
  rw [alarmTick_quiet config s dyaw dpitch now audio_ok hL hR hU hUp]
  have g1 : (timerStep (crossingStep config s dyaw dpitch now)).warning_triggered = true := by
    rw [timerStep_warning, crossingStep_warning]; exact hw
  have g2 : ¬ ((timerStep (crossingStep config s dyaw dpitch now)).warning_triggered = false ∧
      config.max_time_ms ≤ (timerStep (crossingStep config s dyaw dpitch now)).noLookTime_ms) := by
    rw [g1]; simp
  have g3 : (timerStep (crossingStep config s dyaw dpitch now)).sound_player = true := by
    rw [timerStep_player, crossingStep_player]; exact hp
  have g4 : (timerStep (crossingStep config s dyaw dpitch now)).repeat_timer_ms =
      s.repeat_timer_ms + POLL_MS := by
    show (if (crossingStep config s dyaw dpitch now).warning_triggered then
        (crossingStep config s dyaw dpitch now).repeat_timer_ms + POLL_MS
      else (crossingStep config s dyaw dpitch now).repeat_timer_ms) = s.repeat_timer_ms + POLL_MS
    rw [crossingStep_warning, hw, crossingStep_repeat]
    simp
  have g5 : (timerStep (crossingStep config s dyaw dpitch now)).alarm_silence_until_ms =
      s.alarm_silence_until_ms := by
    rw [timerStep_silence, crossingStep_silence]
  have g6 : (timerStep (crossingStep config s dyaw dpitch now)).warning_start_time_ms =
      s.warning_start_time_ms := by
    rw [timerStep_wstart, crossingStep_wstart]
  constructor
  · intro hsil
    have g7 : now < (timerStep (crossingStep config s dyaw dpitch now)).alarm_silence_until_ms := by
      rw [g5]; exact hsil
    rw [escalationStep, if_neg g2, if_pos g1, if_pos g3, if_pos g7]
    exact ⟨g4, rfl⟩
  · intro hsil hrep
    have g7 : ¬ now <
        (timerStep (crossingStep config s dyaw dpitch now)).alarm_silence_until_ms := by
      rw [g5]; exact not_lt.mpr hsil
    have g8 : config.repeat_interval_ms ≤
        (timerStep (crossingStep config s dyaw dpitch now)).repeat_timer_ms := by
      rw [g4]; exact hrep
    rw [escalationStep, if_neg g2, if_pos g1, if_pos g3, if_neg g7, if_pos g8, g6]
    exact ⟨rfl, rfl⟩

/-- C3 amended witness at a concrete input (silenced case). -/
theorem repeat_respects_silence_witness :
    (alarmTick cfgC3 stC3 0 0 500 true).state.repeat_timer_ms =
      stC3.repeat_timer_ms + POLL_MS :=
  ((repeat_respects_silence cfgC3 stC3 0 0 500 true rfl rfl
    (by norm_num [cfgC3, cfgW]) (by norm_num [cfgC3, cfgW]) rfl
    (by norm_num [cfgC3, cfgW])).1
    (by norm_num [stC3, initialAlarmState])).1

/-! ### C5 -/

/-- C5: if the idle threshold is met while the silence window is open, the
IDLE→WARNING transition is deferred, not dropped: on a silenced tick the
warning stays off while the idle timer keeps accumulating and the silence
deadline is unchanged (so the same condition is re-evaluated next tick), and
on the first tick with `now ≥ silence_until` the warning fires. -/
theorem warning_deferred_until_silence (config : LookoutAlarmConfig) (s : AlarmState)
    (dyaw dpitch : ℚ) (now : Int) (audio_ok : Bool)
    (hw : s.warning_triggered = false)
    (hL : ¬ config.min_horizontal_angle / 2 < dyaw)
    (hR : ¬ dyaw < -(config.min_horizontal_angle / 2))
    (hU : s.looked_up_ever = false)
    (hUp : ¬ config.min_vertical_angle_up < dpitch)
    (hidle : config.max_time_ms ≤ s.noLookTime_ms + POLL_MS) :
    (now < s.alarm_silence_until_ms →
      (alarmTick config s dyaw dpitch now audio_ok).state.warning_triggered = false ∧
      (alarmTick config s dyaw dpitch now audio_ok).state.noLookTime_ms =
        s.noLookTime_ms + POLL_MS ∧
      (alarmTick config s dyaw dpitch now audio_ok).state.alarm_silence_until_ms =
        s.alarm_silence_until_ms ∧
      (alarmTick config s dyaw dpitch now audio_ok).actions = []) ∧
    (s.alarm_silence_until_ms ≤ now →
      (alarmTick config s dyaw dpitch now audio_ok).state.warning_triggered = true ∧
      (alarmTick config s dyaw dpitch now audio_ok).state.warning_start_time_ms = now) := by
  rw [alarmTick_quiet config s dyaw dpitch now audio_ok hL hR hU hUp]
  have g1 : (timerStep (crossingStep config s dyaw dpitch now)).warning_triggered = false := by
    rw [timerStep_warning, crossingStep_warning]; exact hw
  have g2 : config.max_time_ms ≤
      (timerStep (crossingStep config s dyaw dpitch now)).noLookTime_ms := by
    rw [timerStep_noLook, crossingStep_noLook]; exact hidle
  have g5 : (timerStep (crossingStep config s dyaw dpitch now)).alarm_silence_until_ms =
      s.alarm_silence_until_ms := by
    rw [timerStep_silence, crossingStep_silence]
  constructor
  · intro hsil
    have g7 : now < (timerStep (crossingStep config s dyaw dpitch now)).alarm_silence_until_ms := by
      rw [g5]; exact hsil
    rw [escalationStep, if_pos ⟨g1, g2⟩, if_pos g7]
    refine ⟨g1, ?_, g5, rfl⟩
    rw [timerStep_noLook, crossingStep_noLook]
  · intro hsil
    have g7 : ¬ now <
        (timerStep (crossingStep config s dyaw dpitch now)).alarm_silence_until_ms := by
      rw [g5]; exact not_lt.mpr hsil
    rw [escalationStep, if_pos ⟨g1, g2⟩, if_neg g7]
    exact ⟨rfl, rfl⟩

/-- C5 witness at a concrete input (Scenario B: threshold met at t = 2000
while silenced until 6900, warning stays off). -/
theorem warning_deferred_until_silence_witness :
    (alarmTick cfgShort stC5 0 0 2000 true).state.warning_triggered = false :=
  ((warning_deferred_until_silence cfgShort stC5 0 0 2000 true rfl
    (by norm_num [cfgShort, cfgW]) (by norm_num [cfgShort, cfgW]) rfl
    (by norm_num [cfgShort, cfgW])
    (by norm_num [cfgShort, cfgW, stC5, initialAlarmState, POLL_MS])).1
    (by norm_num [stC5, initialAlarmState])).1

/-! ### C9 -/

/-- C9 counterexample to the claim as stated: a center-reset event clears the
directional flags but leaves the idle timer at 5000 and the warning active —
it is not the full reset the lifecycle sentence promises. -/
theorem center_reset_not_full_reset_cex :
    (centerResetApply cfgs6 1 states9 0).looked_left_ever = false ∧
    (centerResetApply cfgs6 1 states9 0).noLookTime_ms = 5000 ∧
    ¬ (centerResetApply cfgs6 1 states9 0).noLookTime_ms = 0 ∧
    (centerResetApply cfgs6 1 states9 0).warning_triggered = true := by
  norm_num [centerResetApply, cfgs6, cfgW, states9, initialAlarmState]

/-- C9 amended: a center-reset event clears, for every enabled alarm, exactly
the four directional flags and the two horizontal timestamps; idle timer,
warning state, repeat timer, warning start time, silence window and sound
state are unchanged, and disabled or out-of-range alarms are untouched. -/
theorem center_reset_clears_flags_only (cfgs : ℕ → LookoutAlarmConfig) (n : ℕ)
    (states : ℕ → AlarmState) (j : ℕ) :
    (j < n → 0 < (cfgs j).min_horizontal_angle →
      (centerResetApply cfgs n states j).looked_left_ever = false ∧
      (centerResetApply cfgs n states j).left_ever_time_ms = -1 ∧
      (centerResetApply cfgs n states j).looked_right_ever = false ∧
      (centerResetApply cfgs n states j).right_ever_time_ms = -1 ∧
      (centerResetApply cfgs n states j).looked_up_ever = false ∧
      (centerResetApply cfgs n states j).looked_down_ever = false ∧
      (centerResetApply cfgs n states j).noLookTime_ms = (states j).noLookTime_ms ∧
      (centerResetApply cfgs n states j).warning_triggered = (states j).warning_triggered ∧
      (centerResetApply cfgs n states j).repeat_timer_ms = (states j).repeat_timer_ms ∧
      (centerResetApply cfgs n states j).warning_start_time_ms =
        (states j).warning_start_time_ms ∧
      (centerResetApply cfgs n states j).alarm_silence_until_ms =
        (states j).alarm_silence_until_ms ∧
      (centerResetApply cfgs n states j).sound_player = (states j).sound_player ∧
      (centerResetApply cfgs n states j).sound_playing = (states j).sound_playing) ∧
    (¬ (j < n ∧ 0 < (cfgs j).min_horizontal_angle) →
      centerResetApply cfgs n states j = states j) := by
  constructor
  · intro h1 h2
    rw [centerResetApply]
    rw [if_pos ⟨h1, h2⟩]
    exact ⟨rfl, rfl, rfl, rfl, rfl, rfl, rfl, rfl, rfl, rfl, rfl, rfl, rfl⟩
  · intro h
    rw [centerResetApply, if_neg h]

/-- C9 amended witness at a concrete input. -/
theorem center_reset_clears_flags_only_witness :
    (centerResetApply cfgs6 1 states9 0).noLookTime_ms = (states9 0).noLookTime_ms :=
  ((center_reset_clears_flags_only cfgs6 1 states9 0).1 (by norm_num)
    (by norm_num [cfgs6, cfgW])).2.2.2.2.2.2.1

/-! ### C10 -/

/-- C10: the startup pass replaces `repeat_interval_ms` by 5000 exactly when
it is below 100, changes no other field, is idempotent (so applying it once
at startup is canonical), commutes with the disable-marking pass on this
field, and is applied to every configured alarm once. -/
theorem repeat_interval_normalization :
    (∀ c : LookoutAlarmConfig,
      (normalizeRepeatInterval c).repeat_interval_ms =
        (if c.repeat_interval_ms < 100 then 5000 else c.repeat_interval_ms) ∧
      normalizeRepeatInterval (normalizeRepeatInterval c) = normalizeRepeatInterval c ∧
      (normalizeRepeatInterval c).min_horizontal_angle = c.min_horizontal_angle ∧
      (normalizeRepeatInterval c).min_vertical_angle_up = c.min_vertical_angle_up ∧
      (normalizeRepeatInterval c).min_vertical_angle_down = c.min_vertical_angle_down ∧
      (normalizeRepeatInterval c).max_time_ms = c.max_time_ms ∧
      (normalizeRepeatInterval c).audio_file = c.audio_file ∧
      (normalizeRepeatInterval c).start_volume = c.start_volume ∧
      (normalizeRepeatInterval c).end_volume = c.end_volume ∧
      (normalizeRepeatInterval c).volume_ramp_time_ms = c.volume_ramp_time_ms ∧
      (normalizeRepeatInterval c).min_lookout_time_ms = c.min_lookout_time_ms ∧
      (normalizeRepeatInterval c).silence_after_look_ms = c.silence_after_look_ms ∧
      (markDisabled c).repeat_interval_ms = c.repeat_interval_ms) ∧
    (∀ (alarms : List LookoutAlarmConfig) (i : ℕ),
      (startupNormalize alarms)[i]? =
        alarms[i]?.map (fun c => markDisabled (normalizeRepeatInterval c))) := by
  constructor
  · intro c
    refine ⟨?_, ?_, ?_⟩
    · rw [normalizeRepeatInterval]
      split_ifs <;> rfl
    · have hge : ¬ (normalizeRepeatInterval c).repeat_interval_ms < 100 := by
        rw [normalizeRepeatInterval]
        split_ifs with h
        · norm_num
        · exact h
      rw [normalizeRepeatInterval, if_neg hge]
    · refine ⟨?_, ?_, ?_, ?_, ?_, ?_, ?_, ?_, ?_, ?_, ?_⟩ <;>
        first
          | (rw [normalizeRepeatInterval]; split_ifs <;> rfl)
          | (rw [markDisabled]; split_ifs <;> rfl)
  · intro alarms i
    rw [startupNormalize, List.getElem?_map]

/-! ### C8 -/

/-- C8 (modelled from the spec, the adaptive mode being absent from the final
source): with an empty window the adaptive center is the current sample and
the relative angle is zero; with a non-empty window the center is the median
of the interquartile subset of a sorted permutation of the window, and in
particular is one of the actual samples. -/
theorem adaptive_center_spec :
    (∀ current : ℚ, adaptiveCenterAxis [] current = current ∧
      current - adaptiveCenterAxis [] current = 0) ∧
    (∀ (window : List ℚ) (current : ℚ), window ≠ [] →
      (∃ l : List ℚ, l.Sorted (· ≤ ·) ∧ List.Perm window l ∧
        adaptiveCenterAxis window current = listMedian (iqrSubset l)) ∧
      adaptiveCenterAxis window current ∈ window) := by
  constructor
  · intro current
    constructor
    · rw [adaptiveCenterAxis, if_pos rfl]
    · rw [adaptiveCenterAxis, if_pos rfl, sub_self]
  · intro window current hw
    have hs : (List.insertionSort (· ≤ ·) window).Sorted (· ≤ ·) :=
      List.sorted_insertionSort _ _
    have hperm : List.Perm window (List.insertionSort (· ≤ ·) window) :=
      (List.perm_insertionSort _ _).symm
    have heq : adaptiveCenterAxis window current =
        listMedian (iqrSubset (List.insertionSort (· ≤ ·) window)) := by
      rw [adaptiveCenterAxis, if_neg hw]
    refine ⟨⟨_, hs, hperm, heq⟩, ?_⟩
    have hlen : 0 < (List.insertionSort (· ≤ ·) window).length := by
      rw [← hperm.length_eq]
      exact List.length_pos.mpr hw
    have hq1 : (List.insertionSort (· ≤ ·) window).length / 4 <
        (List.insertionSort (· ≤ ·) window).length :=
      Nat.div_lt_self hlen (by norm_num)
    have hsub : 0 < (iqrSubset (List.insertionSort (· ≤ ·) window)).length := by
      rw [iqrSubset, List.length_take, List.length_drop]
      refine lt_min ?_ ?_ <;> omega
    have hidx : (iqrSubset (List.insertionSort (· ≤ ·) window)).length / 2 <
        (iqrSubset (List.insertionSort (· ≤ ·) window)).length :=
      Nat.div_lt_self hsub (by norm_num)
    have hmem : listMedian (iqrSubset (List.insertionSort (· ≤ ·) window)) ∈
        iqrSubset (List.insertionSort (· ≤ ·) window) := by
      rw [listMedian, List.getD_eq_getElem _ _ hidx]
      exact List.getElem_mem hidx
    have hmem2 : listMedian (iqrSubset (List.insertionSort (· ≤ ·) window)) ∈
        List.insertionSort (· ≤ ·) window := by
      rw [iqrSubset] at hmem
      exact List.drop_subset _ _ (List.take_subset _ _ hmem)
    rw [heq]
    exact hperm.mem_iff.mpr hmem2

/-- C8 witness at a concrete window. -/
theorem adaptive_center_spec_witness :
    adaptiveCenterAxis [3, 1, 2] 5 ∈ ([3, 1, 2] : List ℚ) :=
  (adaptive_center_spec.2 [3, 1, 2] 5 (by simp)).2

/-! ### C7 -/

/-- Invariant of the widest-alarm scan: a valid accumulator holds the first
enabled index attaining the maximal span among the indices scanned so far; an
invalid accumulator means no enabled index has been scanned. -/
theorem widestAux_invariant (cfgs : ℕ → LookoutAlarmConfig) :
    ∀ (k i : ℕ) (acc : ℕ × ℚ × Bool),
      (acc.2.2 = true →
        acc.1 < i ∧ 0 < (cfgs acc.1).min_horizontal_angle ∧
        acc.2.1 = (cfgs acc.1).min_horizontal_angle ∧
        (∀ j, j < i → 0 < (cfgs j).min_horizontal_angle →
          (cfgs j).min_horizontal_angle ≤ acc.2.1) ∧
        (∀ j, j < acc.1 → 0 < (cfgs j).min_horizontal_angle →
          (cfgs j).min_horizontal_angle < acc.2.1)) →
      (acc.2.2 = false → ∀ j, j < i → ¬ 0 < (cfgs j).min_horizontal_angle) →
      (((widestAux cfgs k i acc).2.2 = true →
        (widestAux cfgs k i acc).1 < i + k ∧
        0 < (cfgs (widestAux cfgs k i acc).1).min_horizontal_angle ∧
        (widestAux cfgs k i acc).2.1 =
          (cfgs (widestAux cfgs k i acc).1).min_horizontal_angle ∧
        (∀ j, j < i + k → 0 < (cfgs j).min_horizontal_angle →
          (cfgs j).min_horizontal_angle ≤ (widestAux cfgs k i acc).2.1) ∧
        (∀ j, j < (widestAux cfgs k i acc).1 → 0 < (cfgs j).min_horizontal_angle →
          (cfgs j).min_horizontal_angle < (widestAux cfgs k i acc).2.1)) ∧
       ((widestAux cfgs k i acc).2.2 = false →
        ∀ j, j < i + k → ¬ 0 < (cfgs j).min_horizontal_angle)) := by
  intro k
  induction k with
  | zero =>
      intro i acc h1 h2
      simp only [widestAux, Nat.add_zero]
      exact ⟨h1, h2⟩
  | succ k ih =>
      intro i acc h1 h2
      by_cases hsp : 0 < (cfgs i).min_horizontal_angle
      · by_cases hupd : acc.2.2 = false ∨ acc.2.1 < (cfgs i).min_horizontal_angle
        · rw [widestAux, if_pos hsp, if_pos hupd]
          have h1' : ((i, (cfgs i).min_horizontal_angle, true) : ℕ × ℚ × Bool).2.2 = true →
              (i, (cfgs i).min_horizontal_angle, true).1 < i + 1 ∧
              0 < (cfgs (i, (cfgs i).min_horizontal_angle, true).1).min_horizontal_angle ∧
              ((i, (cfgs i).min_horizontal_angle, true) : ℕ × ℚ × Bool).2.1 =
                (cfgs (i, (cfgs i).min_horizontal_angle, true).1).min_horizontal_angle ∧
              (∀ j, j < i + 1 → 0 < (cfgs j).min_horizontal_angle →
                (cfgs j).min_horizontal_angle ≤
                  ((i, (cfgs i).min_horizontal_angle, true) : ℕ × ℚ × Bool).2.1) ∧
              (∀ j, j < (i, (cfgs i).min_horizontal_angle, true).1 →
                0 < (cfgs j).min_horizontal_angle →
                (cfgs j).min_horizontal_angle <
                  ((i, (cfgs i).min_horizontal_angle, true) : ℕ × ℚ × Bool).2.1) := by
            intro _
            refine ⟨Nat.lt_succ_self i, hsp, rfl, ?_, ?_⟩
            · intro j hj hjsp
              rcases Nat.lt_succ_iff_lt_or_eq.mp hj with hj' | hj'
              · cases hb : acc.2.2
                · exact absurd hjsp (h2 hb j hj')
                · obtain ⟨_, _, _, ha4, _⟩ := h1 hb
                  have hlt : acc.2.1 < (cfgs i).min_horizontal_angle := by
                    rcases hupd with h | h
                    · rw [hb] at h; simp at h
                    · exact h
                  exact le_of_lt (lt_of_le_of_lt (ha4 j hj' hjsp) hlt)
              · subst hj'; exact le_refl _
            · intro j hj hjsp
              cases hb : acc.2.2
              · exact absurd hjsp (h2 hb j hj)
              · obtain ⟨_, _, _, ha4, _⟩ := h1 hb
                have hlt : acc.2.1 < (cfgs i).min_horizontal_angle := by
                  rcases hupd with h | h
                  · rw [hb] at h; simp at h
                  · exact h
                exact lt_of_le_of_lt (ha4 j hj hjsp) hlt
          have h2' : ((i, (cfgs i).min_horizontal_angle, true) : ℕ × ℚ × Bool).2.2 = false →
              ∀ j, j < i + 1 → ¬ 0 < (cfgs j).min_horizontal_angle := by
            intro h; simp at h
          have hres := ih (i + 1) (i, (cfgs i).min_horizontal_angle, true) h1' h2'
          rwa [show i + 1 + k = i + (k + 1) from by omega] at hres
        · rw [widestAux, if_pos hsp, if_neg hupd]
          push_neg at hupd
          obtain ⟨hvT, hle⟩ := hupd
          have hvtrue : acc.2.2 = true := by
            cases hb : acc.2.2
            · exact absurd hb hvT
            · rfl
          obtain ⟨ha1, ha2, ha3, ha4, ha5⟩ := h1 hvtrue
          have h1' : acc.2.2 = true →
              acc.1 < i + 1 ∧ 0 < (cfgs acc.1).min_horizontal_angle ∧
              acc.2.1 = (cfgs acc.1).min_horizontal_angle ∧
              (∀ j, j < i + 1 → 0 < (cfgs j).min_horizontal_angle →
                (cfgs j).min_horizontal_angle ≤ acc.2.1) ∧
              (∀ j, j < acc.1 → 0 < (cfgs j).min_horizontal_angle →
                (cfgs j).min_horizontal_angle < acc.2.1) := by
            intro _
            refine ⟨Nat.lt_succ_of_lt ha1, ha2, ha3, ?_, ha5⟩
            intro j hj hjsp
            rcases Nat.lt_succ_iff_lt_or_eq.mp hj with hj' | hj'
            · exact ha4 j hj' hjsp
            · subst hj'; exact hle
          have h2' : acc.2.2 = false →
              ∀ j, j < i + 1 → ¬ 0 < (cfgs j).min_horizontal_angle := by
            intro h; rw [h] at hvtrue; simp at hvtrue
          have hres := ih (i + 1) acc h1' h2'
          rwa [show i + 1 + k = i + (k + 1) from by omega] at hres
      · rw [widestAux, if_neg hsp]
        have h1' : acc.2.2 = true →
            acc.1 < i + 1 ∧ 0 < (cfgs acc.1).min_horizontal_angle ∧
            acc.2.1 = (cfgs acc.1).min_horizontal_angle ∧
            (∀ j, j < i + 1 → 0 < (cfgs j).min_horizontal_angle →
              (cfgs j).min_horizontal_angle ≤ acc.2.1) ∧
            (∀ j, j < acc.1 → 0 < (cfgs j).min_horizontal_angle →
              (cfgs j).min_horizontal_angle < acc.2.1) := by
          intro hv
          obtain ⟨ha1, ha2, ha3, ha4, ha5⟩ := h1 hv
          refine ⟨Nat.lt_succ_of_lt ha1, ha2, ha3, ?_, ha5⟩
          intro j hj hjsp
          rcases Nat.lt_succ_iff_lt_or_eq.mp hj with hj' | hj'
          · exact ha4 j hj' hjsp
          · subst hj'; exact absurd hjsp hsp
        have h2' : acc.2.2 = false →
            ∀ j, j < i + 1 → ¬ 0 < (cfgs j).min_horizontal_angle := by
          intro hv j hj
          rcases Nat.lt_succ_iff_lt_or_eq.mp hj with hj' | hj'
          · exact h2 hv j hj'
          · subst hj'; exact hsp
        have hres := ih (i + 1) acc h1' h2'
        rwa [show i + 1 + k = i + (k + 1) from by omega] at hres

/-- C7: the startup scan selects the enabled alarm with the largest
horizontal span, ties resolved to the first in config order (every earlier
enabled alarm has a strictly smaller span); whenever exactly this alarm's
evaluation is a SUCCESS, the loop body force-resets every other enabled alarm
with a strictly smaller span and leaves every other alarm untouched, and a
SUCCESS of any non-widest alarm never touches another alarm's state. -/
theorem widest_alarm_cascade (cfgs : ℕ → LookoutAlarmConfig) (n wi : ℕ) (wang : ℚ)
    (hw : widestAlarm cfgs n = (wi, wang, true)) :
    (wi < n ∧ 0 < (cfgs wi).min_horizontal_angle ∧
      wang = (cfgs wi).min_horizontal_angle ∧
      (∀ j, j < n → 0 < (cfgs j).min_horizontal_angle →
        (cfgs j).min_horizontal_angle ≤ (cfgs wi).min_horizontal_angle) ∧
      (∀ j, j < wi → 0 < (cfgs j).min_horizontal_angle →
        (cfgs j).min_horizontal_angle < (cfgs wi).min_horizontal_angle)) ∧
    (∀ (dyaw dpitch : ℚ) (now : Int) (audio_ok : Bool) (states : ℕ → AlarmState),
      (alarmTick (cfgs wi) (states wi) dyaw dpitch now audio_ok).success = true →
      ∀ j, j ≠ wi →
        ((j < n ∧ 0 < (cfgs j).min_horizontal_angle ∧
            (cfgs j).min_horizontal_angle < (cfgs wi).min_horizontal_angle) →
          stepAt cfgs n true wi dyaw dpitch now audio_ok wi states j =
            successResetState (states j)) ∧
        (¬ (j < n ∧ 0 < (cfgs j).min_horizontal_angle ∧
            (cfgs j).min_horizontal_angle < (cfgs wi).min_horizontal_angle) →
          stepAt cfgs n true wi dyaw dpitch now audio_ok wi states j = states j)) ∧
    (∀ (dyaw dpitch : ℚ) (now : Int) (audio_ok : Bool) (states : ℕ → AlarmState) (i : ℕ),
      i ≠ wi → ∀ j, j ≠ i →
        stepAt cfgs n true wi dyaw dpitch now audio_ok i states j = states j) := by
  have hinv := widestAux_invariant cfgs n 0 (0, 0, false)
    (by intro h; simp at h)
    (by intro _ j hj; exact absurd hj (Nat.not_lt_zero j))
  rw [widestAlarm] at hw
  rw [hw] at hinv
  obtain ⟨hmain, _⟩ := hinv
  obtain ⟨hwn, hwsp, hwang, hmax, hfirst⟩ := hmain rfl
  rw [Nat.zero_add] at hwn hmax
  have part1 : wi < n ∧ 0 < (cfgs wi).min_horizontal_angle ∧
      wang = (cfgs wi).min_horizontal_angle ∧
      (∀ j, j < n → 0 < (cfgs j).min_horizontal_angle →
        (cfgs j).min_horizontal_angle ≤ (cfgs wi).min_horizontal_angle) ∧
      (∀ j, j < wi → 0 < (cfgs j).min_horizontal_angle →
        (cfgs j).min_horizontal_angle < (cfgs wi).min_horizontal_angle) := by
    refine ⟨hwn, hwsp, hwang, ?_, ?_⟩
    · intro j hj hjsp
      have := hmax j hj hjsp
      rwa [hwang] at this
    · intro j hj hjsp
      have := hfirst j hj hjsp
      rwa [hwang] at this
  refine ⟨part1, ?_, ?_⟩
  · intro dyaw dpitch now audio_ok states hsucc j hj
    have hcondA : wi < n ∧ 0 < (cfgs wi).min_horizontal_angle := ⟨hwn, hwsp⟩
    have hcondB : (alarmTick (cfgs wi) (states wi) dyaw dpitch now audio_ok).success = true ∧
        (true : Bool) = true ∧ wi = wi := ⟨hsucc, rfl, rfl⟩
    constructor
    · intro hc
      rw [stepAt, if_pos hcondA, if_pos hcondB, cascadeApply]
      rw [if_pos ⟨hc.1, hc.2.1, hj, hc.2.2⟩]
      rw [Function.update_noteq hj]
    · intro hc
      rw [stepAt, if_pos hcondA, if_pos hcondB, cascadeApply]
      rw [if_neg (by
        intro hcc
        exact hc ⟨hcc.1, hcc.2.1, hcc.2.2.2⟩)]
      rw [Function.update_noteq hj]
  · intro dyaw dpitch now audio_ok states i hi j hj
    rw [stepAt]
    by_cases hia : i < n ∧ 0 < (cfgs i).min_horizontal_angle
    · rw [if_pos hia, if_neg (by
        intro hcc
        exact hi hcc.2.2)]
      rw [Function.update_noteq hj]
    · rw [if_neg hia]

/-- C7 witness (Scenario C): the widest alarm (span 120) succeeds and the
loop body resets the narrower alarm (span 60, idle 5000 ms) to idle 0 with no
warning. -/
theorem widest_alarm_cascade_witness :
    (stepAt cfgs7 2 true 0 0 0 2100 true 0 states7 1).noLookTime_ms = 0 ∧
    (stepAt cfgs7 2 true 0 0 0 2100 true 0 states7 1).warning_triggered = false := by
  have h := ((widest_alarm_cascade cfgs7 2 0 120 (by decide)).2.1 0 0 2100 true states7
    (by norm_num [cfgs7, cfgW, states7, stC1, initialAlarmState, alarmTick, fourSeenEval,
      crossingStep, timerStep, newLeftLook, newRightLook, lookingLeft, lookingRight,
      lookingUp, lookingDown, successResetState, POLL_MS])
    1 (by norm_num)).1
    (by norm_num [cfgs7, cfgNarrow, cfgW])
  rw [h]
  exact ⟨rfl, rfl⟩

/-! ### C6 helper lemmas -/

theorem silenceUpdState_warning (config : LookoutAlarmConfig) (now : Int)
    (new_lr : Bool) (s : AlarmState) :
    (silenceUpdState config now new_lr s).warning_triggered = s.warning_triggered := by
  rw [silenceUpdState]
  split_ifs <;> rfl

theorem escalationStep_warning_true (config : LookoutAlarmConfig) (now : Int)
    (audio_ok : Bool) (s : AlarmState) (h : s.warning_triggered = true) :
    ((escalationStep config now audio_ok s).1).warning_triggered = true := by
  rw [escalationStep, if_neg (by simp [h]), if_pos h]
  split_ifs <;> simpa using h

theorem alarmTickRest_warning_true (config : LookoutAlarmConfig) (now : Int)
    (audio_ok : Bool) (new_lr : Bool) (s : AlarmState) (h : s.warning_triggered = true) :
    ((alarmTickRest config now audio_ok new_lr s).1).warning_triggered = true := by
  rw [alarmTickRest]
  exact escalationStep_warning_true config now audio_ok _
    (by rw [silenceUpdState_warning]; exact h)

theorem fourSeenEval_no_success_warning (config : LookoutAlarmConfig) (s : AlarmState)
    (h : (fourSeenEval config s).success = false) :
    (fourSeenEval config s).state.warning_triggered = s.warning_triggered := by
  rw [fourSeenEval] at h ⊢
  split_ifs at h ⊢ <;> simp_all

/-- The only path inside one per-alarm evaluation that turns the warning flag
off is a SUCCESS. -/
theorem alarmTick_success_of_warning_cleared (config : LookoutAlarmConfig) (s : AlarmState)
    (dyaw dpitch : ℚ) (now : Int) (audio_ok : Bool)
    (h1 : s.warning_triggered = true)
    (h2 : (alarmTick config s dyaw dpitch now audio_ok).state.warning_triggered = false) :
    (alarmTick config s dyaw dpitch now audio_ok).success = true := by
  cases hb : (fourSeenEval config (timerStep (crossingStep config s dyaw dpitch now))).success
  · exfalso
    have hw4 : (fourSeenEval config
        (timerStep (crossingStep config s dyaw dpitch now))).state.warning_triggered = true := by
      rw [fourSeenEval_no_success_warning config _ hb, timerStep_warning, crossingStep_warning]
      exact h1
    have hwres : (alarmTick config s dyaw dpitch now audio_ok).state.warning_triggered = true := by
      simp only [alarmTick, hb]
      simp only [Bool.false_eq_true, if_false]
      exact alarmTickRest_warning_true config now audio_ok _ _ hw4
    rw [hwres] at h2
    exact Bool.noConfusion h2
  · simp only [alarmTick, hb]
    simp only [if_true]
    exact hb

theorem centerResetApply_warning (cfgs : ℕ → LookoutAlarmConfig) (n : ℕ)
    (states : ℕ → AlarmState) (j : ℕ) :
    (centerResetApply cfgs n states j).warning_triggered = (states j).warning_triggered := by
  simp only [centerResetApply]
  split_ifs <;> rfl

/-- Unroll the alarm loop at its last step. -/
theorem loopFrom_succ_last (cfgs : ℕ → LookoutAlarmConfig) (n : ℕ) (wvalid : Bool)
    (wi : ℕ) (dyaw dpitch : ℚ) (now : Int) (audio_ok : Bool) :
    ∀ (k i : ℕ) (states : ℕ → AlarmState),
      loopFrom cfgs n wvalid wi dyaw dpitch now audio_ok (k + 1) i states =
        stepAt cfgs n wvalid wi dyaw dpitch now audio_ok (i + k)
          (loopFrom cfgs n wvalid wi dyaw dpitch now audio_ok k i states) := by
  intro k
  induction k with
  | zero =>
      intro i states
      simp [loopFrom]
  | succ k ih =>
      intro i states
      rw [loopFrom, ih (i + 1) (stepAt cfgs n wvalid wi dyaw dpitch now audio_ok i states)]
      rw [show i + 1 + k = i + (k + 1) from by omega]
      rw [loopFrom]

/-! ### C6 -/

/-- C6 counterexample to the claim as stated: an HMD session loss with failed
recreation clears `warning_triggered` (while a skipped not-ready tick indeed
leaves the state untouched), so SUCCESS and Activity Gate deactivation are
not the only clearing paths. -/
theorem warning_cleared_by_hmd_loss_cex :
    (states6 0).warning_triggered = true ∧
    (engineStep cfgs6 1 false 0 0 TickEvent.hmdSessionLost states6 0).warning_triggered =
      false ∧
    engineStep cfgs6 1 false 0 0 TickEvent.hmdNotReady states6 0 = states6 0 :=
  ⟨rfl, rfl, rfl⟩

/-- C6 amended: once `warning_triggered` is true it stays true across ticks
until the alarm's own SUCCESS evaluation, a SUCCESS of the widest alarm
cascading onto this strictly narrower alarm, Activity Gate deactivation
(flight end), or an HMD session loss with failed recreation; in particular a
skipped not-ready tick never clears it. -/
theorem warning_persists_until_reset (cfgs : ℕ → LookoutAlarmConfig) (n : ℕ)
    (wvalid : Bool) (wi : ℕ) (now : Int) (ev : TickEvent) (states : ℕ → AlarmState) (i : ℕ)
    (hw : (states i).warning_triggered = true)
    (hcl : (engineStep cfgs n wvalid wi now ev states i).warning_triggered = false) :
    ev = TickEvent.flightEnd ∨ ev = TickEvent.hmdSessionLost ∨
    (∃ dyaw dpitch audio_ok center_reset,
      ev = TickEvent.sample dyaw dpitch audio_ok center_reset ∧
      i < n ∧ 0 < (cfgs i).min_horizontal_angle ∧
      ((alarmTick (cfgs i)
          (loopFrom cfgs n wvalid wi dyaw dpitch now audio_ok i 0
            (if center_reset = true then centerResetApply cfgs n states else states) i)
          dyaw dpitch now audio_ok).success = true ∨
       (wvalid = true ∧ i ≠ wi ∧ wi < n ∧ 0 < (cfgs wi).min_horizontal_angle ∧
        (cfgs i).min_horizontal_angle < (cfgs wi).min_horizontal_angle ∧
        (alarmTick (cfgs wi)
          (loopFrom cfgs n wvalid wi dyaw dpitch now audio_ok wi 0
            (if center_reset = true then centerResetApply cfgs n states else states) wi)
          dyaw dpitch now audio_ok).success = true))) := by
  cases ev with
  | flightEnd => exact Or.inl rfl
  | hmdSessionLost => exact Or.inr (Or.inl rfl)
  | hmdNotReady =>
      exfalso
      simp only [engineStep] at hcl
      rw [hw] at hcl
      exact Bool.noConfusion hcl
  | sample dyaw dpitch audio_ok center_reset =>
      refine Or.inr (Or.inr ⟨dyaw, dpitch, audio_ok, center_reset, rfl, ?_⟩)
      simp only [engineStep] at hcl
      set states1 := (if center_reset = true then centerResetApply cfgs n states else states)
        with hst1
      have hw1 : (states1 i).warning_triggered = true := by
        rw [hst1]
        split_ifs
        · rw [centerResetApply_warning]; exact hw
        · exact hw
      have main : ∀ m : ℕ,
          (loopFrom cfgs n wvalid wi dyaw dpitch now audio_ok m 0 states1 i).warning_triggered
            = true ∨
          (i < n ∧ 0 < (cfgs i).min_horizontal_angle ∧
            ((alarmTick (cfgs i)
                (loopFrom cfgs n wvalid wi dyaw dpitch now audio_ok i 0 states1 i)
                dyaw dpitch now audio_ok).success = true ∨
             (wvalid = true ∧ i ≠ wi ∧ wi < n ∧ 0 < (cfgs wi).min_horizontal_angle ∧
              (cfgs i).min_horizontal_angle < (cfgs wi).min_horizontal_angle ∧
              (alarmTick (cfgs wi)
                (loopFrom cfgs n wvalid wi dyaw dpitch now audio_ok wi 0 states1 wi)
                dyaw dpitch now audio_ok).success = true))) := by
        intro m
        induction m with
        | zero =>
            left
            simpa [loopFrom] using hw1
        | succ m ih =>
            rcases ih with htrue | hdone
            · rw [loopFrom_succ_last cfgs n wvalid wi dyaw dpitch now audio_ok m 0 states1,
                Nat.zero_add]
              by_cases hm : m < n ∧ 0 < (cfgs m).min_horizontal_angle
              · by_cases hcas : (alarmTick (cfgs m)
                    (loopFrom cfgs n wvalid wi dyaw dpitch now audio_ok m 0 states1 m)
                    dyaw dpitch now audio_ok).success = true ∧ wvalid = true ∧ m = wi
                · by_cases him : i = m
                  · right
                    subst him
                    exact ⟨hm.1, hm.2, Or.inl hcas.1⟩
                  · by_cases hcc : i < n ∧ 0 < (cfgs i).min_horizontal_angle ∧ i ≠ m ∧
                        (cfgs i).min_horizontal_angle < (cfgs m).min_horizontal_angle
                    · right
                      obtain ⟨hsucc, hval, hmwi⟩ := hcas
                      subst hmwi
                      exact ⟨hcc.1, hcc.2.1, Or.inr
                        ⟨hval, hcc.2.2.1, hm.1, hm.2, hcc.2.2.2, hsucc⟩⟩
                    · left
                      rw [stepAt, if_pos hm, if_pos hcas]
                      simp only [cascadeApply]
                      rw [Function.update_noteq him, if_neg hcc]
                      exact htrue
                · rw [stepAt, if_pos hm, if_neg hcas]
                  by_cases him : i = m
                  · subst him
                    rw [Function.update_same]
                    cases hwr : (alarmTick (cfgs i)
                        (loopFrom cfgs n wvalid wi dyaw dpitch now audio_ok i 0 states1 i)
                        dyaw dpitch now audio_ok).state.warning_triggered
                    · right
                      exact ⟨hm.1, hm.2, Or.inl
                        (alarmTick_success_of_warning_cleared (cfgs i) _ dyaw dpitch now
                          audio_ok htrue hwr)⟩
                    · left; rfl
                  · left
                    rw [Function.update_noteq him]
                    exact htrue
              · rw [stepAt, if_neg hm]
                left
                exact htrue
            · exact Or.inr hdone
      rcases main n with htrue | hdone
      · rw [htrue] at hcl
        exact Bool.noConfusion hcl
      · exact hdone

/-- C6 amended witness: a concrete HMD-session-loss tick that clears an
active warning. -/
theorem warning_persists_until_reset_witness :
    TickEvent.hmdSessionLost = TickEvent.flightEnd ∨
    TickEvent.hmdSessionLost = TickEvent.hmdSessionLost ∨
    (∃ dyaw dpitch audio_ok center_reset,
      TickEvent.hmdSessionLost = TickEvent.sample dyaw dpitch audio_ok center_reset ∧
      0 < 1 ∧ 0 < (cfgs6 0).min_horizontal_angle ∧
      ((alarmTick (cfgs6 0)
          (loopFrom cfgs6 1 false 0 dyaw dpitch 0 audio_ok 0 0
            (if center_reset = true then centerResetApply cfgs6 1 states6 else states6) 0)
          dyaw dpitch 0 audio_ok).success = true ∨
       (false = true ∧ (0 : ℕ) ≠ 0 ∧ 0 < 1 ∧ 0 < (cfgs6 0).min_horizontal_angle ∧
        (cfgs6 0).min_horizontal_angle < (cfgs6 0).min_horizontal_angle ∧
        (alarmTick (cfgs6 0)
          (loopFrom cfgs6 1 false 0 dyaw dpitch 0 audio_ok 0 0
            (if center_reset = true then centerResetApply cfgs6 1 states6 else states6) 0)
          dyaw dpitch 0 audio_ok).success = true))) :=
  warning_persists_until_reset cfgs6 1 false 0 0 TickEvent.hmdSessionLost states6 0 rfl rfl
